import Mathlib

/-!
Shallow embedding of the libnetwork registry core (`network.go`).

Go maps (`networkTable`, `endpointTable`) are modelled as association lists
with overwrite-on-insert semantics; mutex-guarded in-place mutation becomes
explicit state passing (each operation returns its result together with the
updated state).  External collaborators are injected values:

* driver implementations (`driverapi.Driver`, outside `src/`) become a record
  of behaviour functions, with driver errors modelled as `String`;
* the random-id generator (`stringid.GenerateRandomID`) becomes a `freshId`
  parameter of the operations that call it;
* the sandbox snapshot (`sandbox.Info`, outside `src/`) is modelled from the
  spec as an opaque record with a deep-copy operation.

Pointer back-references (`network.ctrlr`, `endpoint.network`) are flattened:
operations that followed those pointers take the owning state explicitly, and
the `endpoint.network` field is represented by the owning network's name,
which is the only thing the accessors read from it.
-/

/-- `types.UUID` is a string alias in the source. -/
abbrev UUID := String

/-- Creation/configuration options are an opaque payload that the registry
never inspects; modelled as an opaque string. -/
abbrev Options := String

/-- Modelled from the spec: `sandbox.Info` (outside `src/`) is an opaque
connectivity snapshot (interface names, gateway, ...) "offering at minimum a
deep-copy operation". -/
structure Info where
  interfaces : List String
  gateway : String
deriving DecidableEq

/-- Modelled from the spec: the deep-copy operation of `sandbox.Info`
(`GetCopy`); it rebuilds the snapshot field by field. -/
def Info.GetCopy (i : Info) : Info :=
  { interfaces := i.interfaces, gateway := i.gateway }

/-- Modelled from the spec: the driver capability contract of section 4.1
(`driverapi.Driver`, outside `src/`).  Each instance's behaviour is injected
as functions; a `some`/`Except.error` result is a driver failure carrying an
opaque error message. -/
structure Driver where
  typeName : String
  config : Options → Option String
  createNetwork : UUID → Options → Option String
  deleteNetwork : UUID → Option String
  createEndpoint : UUID → UUID → String → Options → Except String (Option Info)
  deleteEndpoint : UUID → UUID → Option String

/-- The `endpoint` struct.  The Go back-pointer `network *network` is
flattened to the owning network's name (all the accessors read from it);
`Endpoint.Delete` takes the owning network explicitly instead. -/
structure Endpoint where
  name : String
  id : UUID
  networkName : String
  sandboxInfo : Option Info
deriving DecidableEq

/-- The `network` struct.  `endpoints : endpointTable` is an association list
standing for the Go map; the `ctrlr` back-pointer is passed explicitly to
`Network.Delete`. -/
structure Network where
  name : String
  networkType : String
  id : UUID
  driver : Driver
  endpoints : List (UUID × Endpoint)

/-- The `controller` struct: the network table and the driver table. -/
structure Controller where
  networks : List (UUID × Network)
  drivers : List (String × Driver)

/-- Lookup in a Go map modelled as an association list (`m[k]`). -/
def lookupT {α : Type} (k : String) : List (String × α) → Option α
  | [] => none
  | (k', v) :: rest => if k' = k then some v else lookupT k rest

/-- Removal from a Go map (`delete(m, k)`); removes every binding of `k`,
which on the unique-key lists that represent maps is the one binding. -/
def eraseT {α : Type} (k : String) : List (String × α) → List (String × α)
  | [] => []
  | (k', v) :: rest => if k' = k then eraseT k rest else (k', v) :: eraseT k rest

/-- Insertion/overwrite in a Go map (`m[k] = v`). -/
def insertT {α : Type} (k : String) (v : α) (l : List (String × α)) :
    List (String × α) :=
  (k, v) :: eraseT k l

/-- The name-collision scan of `NewNetwork`:
`for _, n := range c.networks` with early return on `n.name == name`. -/
def nameTaken (name : String) : List (UUID × Network) → Bool
  | [] => false
  | (_, n) :: rest => if n.name = name then true else nameTaken name rest

/-- `New()` creates a controller with an empty network table;
`enumerateDrivers()` is external bootstrap configuration (outside `src/`),
so the initial driver table is a parameter. -/
def New (drivers : List (String × Driver)) : Controller :=
  { networks := [], drivers := drivers }

/-- `(*controller).ConfigureNetworkDriver`. -/
def Controller.ConfigureNetworkDriver (c : Controller) (networkType : String)
    (options : Options) : Option String :=
  match lookupT networkType c.drivers with
  | none => some networkType
  | some d => d.config options

/-- The error values surfaced by the registry (`error.go` types plus the
opaque passthrough of driver errors). -/
inductive Err where
  | errInvalidNetworkDriver : Err
  | networkTypeError (networkType : String) : Err
  | networkNameError (name : String) : Err
  | unknownNetworkError (name id : String) : Err
  | activeEndpointsError (name id : String) : Err
  | unknownEndpointError (name id : String) : Err
  | driverError (msg : String) : Err
deriving DecidableEq

/-- `(*controller).NewNetwork`.  `freshId` stands for the generated random id;
the result pairs the Go return value with the post-state of the controller. -/
def Controller.NewNetwork (c : Controller) (networkType name : String)
    (options : Options) (freshId : UUID) : Except Err Network × Controller :=
  match lookupT networkType c.drivers with
  | none => (Except.error Err.errInvalidNetworkDriver, c)
  | some d =>
    if nameTaken name c.networks then
      (Except.error (Err.networkNameError name), c)
    else
      let nw : Network :=
        { name := name, networkType := "", id := freshId, driver := d,
          endpoints := [] }
      match d.createNetwork nw.id options with
      | some e => (Except.error (Err.driverError e), c)
      | none => (Except.ok nw, { c with networks := insertT nw.id nw c.networks })

/-- `(*controller).Networks`: snapshot of the table's values. -/
def Controller.Networks (c : Controller) : List Network :=
  c.networks.map Prod.snd

/-- The walk loop shared by `WalkNetworks` and `WalkEndpoints`: call the
walker on each element until it returns true. -/
def walkList {α : Type} (walker : α → Bool) : List α → Bool
  | [] => false
  | x :: rest => if walker x then true else walkList walker rest

/-- The walk loop of `WalkEndpoints`, which returns nothing. -/
def walkListU {α : Type} (walker : α → Bool) : List α → Unit
  | [] => ()
  | x :: rest => if walker x then () else walkListU walker rest

/-- The walk loop instrumented to record the elements on which the walker is
invoked, in order; used to state the short-circuit property observationally. -/
def walkVisited {α : Type} (walker : α → Bool) : List α → List α
  | [] => []
  | x :: rest => if walker x then [x] else x :: walkVisited walker rest

/-- `(*controller).WalkNetworks`. -/
def Controller.WalkNetworks (c : Controller) (walker : Network → Bool) : Bool :=
  walkList walker c.Networks

/-- The first-match capture pattern of `NetworkByName`/`EndpointByName`:
the closure walks the snapshot and records the first element satisfying the
predicate, and the walk stops there. -/
def walkFirst {α : Type} (p : α → Bool) : List α → Option α
  | [] => none
  | x :: rest => if p x then some x else walkFirst p rest

/-- `(*controller).NetworkByName`. -/
def Controller.NetworkByName (c : Controller) (name : String) : Option Network :=
  if name = "" then none
  else walkFirst (fun nw => nw.name = name) c.Networks

/-- `(*controller).NetworkByID`. -/
def Controller.NetworkByID (c : Controller) (id : String) : Option Network :=
  lookupT id c.networks

/-- `(*network).Name`. -/
def Network.Name (n : Network) : String := n.name

/-- `(*network).ID`. -/
def Network.ID (n : Network) : String := n.id

/-- `(*network).Delete`.  Takes the owning controller (the `ctrlr`
back-pointer) explicitly and returns the error (if any) with the post-state:
presence check, active-endpoints check, removal from the table, driver call,
and the deferred compensating re-insertion on driver failure. -/
def Network.Delete (n : Network) (c : Controller) : Option Err × Controller :=
  match lookupT n.id c.networks with
  | none => (some (Err.unknownNetworkError n.name n.id), c)
  | some _ =>
    if n.endpoints.length ≠ 0 then
      (some (Err.activeEndpointsError n.name n.id), c)
    else
      let c1 : Controller := { c with networks := eraseT n.id c.networks }
      match n.driver.deleteNetwork n.id with
      | some e =>
        (some (Err.driverError e),
          { c1 with networks := insertT n.id n c1.networks })
      | none => (none, c1)

/-- `(*network).CreateEndpoint`.  `freshId` stands for the generated random
id; on success the endpoint stores the driver's snapshot and is inserted into
the network's table. -/
def Network.CreateEndpoint (n : Network) (name sboxKey : String)
    (options : Options) (freshId : UUID) : Except Err Endpoint × Network :=
  let d := n.driver
  match d.createEndpoint n.id freshId sboxKey options with
  | Except.error e => (Except.error (Err.driverError e), n)
  | Except.ok sinfo =>
    let ep : Endpoint :=
      { name := name, id := freshId, networkName := n.name,
        sandboxInfo := sinfo }
    (Except.ok ep, { n with endpoints := insertT ep.id ep n.endpoints })

/-- `(*network).Endpoints`: snapshot of the table's values. -/
def Network.Endpoints (n : Network) : List Endpoint :=
  n.endpoints.map Prod.snd

/-- `(*network).WalkEndpoints`: same loop as `WalkNetworks` but with no
return value. -/
def Network.WalkEndpoints (n : Network) (walker : Endpoint → Bool) : Unit :=
  walkListU walker n.Endpoints

/-- `(*network).EndpointByName`. -/
def Network.EndpointByName (n : Network) (name : String) : Option Endpoint :=
  if name = "" then none
  else walkFirst (fun ep => ep.name = name) n.Endpoints

/-- `(*network).EndpointByID`. -/
def Network.EndpointByID (n : Network) (id : String) : Option Endpoint :=
  lookupT id n.endpoints

/-- `(*endpoint).ID`. -/
def Endpoint.ID (ep : Endpoint) : String := ep.id

/-- `(*endpoint).Name`. -/
def Endpoint.Name (ep : Endpoint) : String := ep.name

/-- `(*endpoint).SandboxInfo`: nil stays nil, otherwise a deep copy. -/
def Endpoint.SandboxInfo (ep : Endpoint) : Option Info :=
  match ep.sandboxInfo with
  | none => none
  | some i => some i.GetCopy

/-- `(*endpoint).Delete`.  Takes the owning network (the `network`
back-pointer) explicitly: presence check, removal from the table, driver
call, and the deferred compensating re-insertion on driver failure. -/
def Endpoint.Delete (ep : Endpoint) (n : Network) : Option Err × Network :=
  match lookupT ep.id n.endpoints with
  | none => (some (Err.unknownEndpointError ep.name ep.id), n)
  | some _ =>
    let n1 : Network := { n with endpoints := eraseT ep.id n.endpoints }
    match n.driver.deleteEndpoint n.id ep.id with
    | some e =>
      (some (Err.driverError e),
        { n1 with endpoints := insertT ep.id ep n1.endpoints })
    | none => (none, n1)

/-- `(*endpoint).Network`: the owning network's name. -/
def Endpoint.Network (ep : Endpoint) : String := ep.networkName

/-- Replace only the `deleteNetwork` behaviour of a network's driver; used to
state that the error paths of `Network.Delete` are independent of the driver
(the driver is never invoked there). -/
def Network.withDeleteNetwork (n : Network) (f : UUID → Option String) :
    Network :=
  { n with driver := { n.driver with deleteNetwork := f } }

/-- Delete every endpoint of the network in turn, following the snapshot of
its endpoint table. -/
def deleteAllEndpoints (n : Network) : Network :=
  List.foldl (fun acc ep => (Endpoint.Delete ep acc).2) n n.Endpoints

/-- One `NewNetwork` request: arguments plus the id the generator returns. -/
structure NewNetReq where
  networkType : String
  name : String
  options : Options
  freshId : UUID

/-- Run a sequence of sequential `NewNetwork` calls, each continuing from the
previous post-state (failed calls leave the state unchanged). -/
def runNewNetworks (c : Controller) : List NewNetReq → Controller
  | [] => c
  | r :: rest =>
    runNewNetworks (c.NewNetwork r.networkType r.name r.options r.freshId).2 rest

/-- One `CreateEndpoint` request: arguments plus the generated id. -/
structure CreateEpReq where
  name : String
  sboxKey : String
  options : Options
  freshId : UUID

/-- Run a sequence of `CreateEndpoint` calls on one network. -/
def runCreateEndpoints (n : Network) : List CreateEpReq → Network
  | [] => n
  | r :: rest =>
    runCreateEndpoints (n.CreateEndpoint r.name r.sboxKey r.options r.freshId).2 rest

/-- A concrete sandbox snapshot for witnesses. -/
def sampleInfo : Info := { interfaces := ["eth0"], gateway := "10.0.0.1" }

/-- A driver whose operations all succeed. -/
def okDriver : Driver :=
  { typeName := "bridge"
    config := fun _ => none
    createNetwork := fun _ _ => none
    deleteNetwork := fun _ => none
    createEndpoint := fun _ _ _ _ => Except.ok (some sampleInfo)
    deleteEndpoint := fun _ _ => none }

/-- A driver whose create/delete operations all fail. -/
def failDriver : Driver :=
  { typeName := "bridge"
    config := fun _ => none
    createNetwork := fun _ _ => some "boom"
    deleteNetwork := fun _ => some "boom"
    createEndpoint := fun _ _ _ _ => Except.error "boom"
    deleteEndpoint := fun _ _ => some "boom" }

/-- A concrete endpoint for witnesses. -/
def sampleEndpoint : Endpoint :=
  { name := "ep1", id := "eid1", networkName := "net1",
    sandboxInfo := some sampleInfo }

/-- A concrete empty network bound to the succeeding driver. -/
def sampleNet : Network :=
  { name := "net1", networkType := "", id := "nid1", driver := okDriver,
    endpoints := [] }

/-- A concrete network holding one endpoint. -/
def sampleNetEp : Network :=
  { sampleNet with endpoints := [("eid1", sampleEndpoint)] }

/-- A concrete empty network bound to the failing driver. -/
def sampleNetFail : Network :=
  { sampleNet with driver := failDriver }

/-- A controller registering `sampleNetFail`. -/
def sampleCtrlFail : Controller :=
  { networks := [("nid1", sampleNetFail)], drivers := [("bridge", failDriver)] }

/-- A controller registering `sampleNetEp`. -/
def sampleCtrlEp : Controller :=
  { networks := [("nid1", sampleNetEp)], drivers := [("bridge", okDriver)] }

/-- A concrete network holding one endpoint, bound to the failing driver. -/
def sampleNetEpFail : Network :=
  { name := "net1", networkType := "", id := "nid1", driver := failDriver,
    endpoints := [("eid1", sampleEndpoint)] }

/-- A controller with a registered network but no drivers at all. -/
def sampleCtrlNoDrivers : Controller :=
  { networks := [("nid1", sampleNet)], drivers := [] }

/-- A network whose id is absent from every sample controller. -/
def ghostNet : Network := { sampleNet with id := "ghost" }

/-- A concrete endpoint with no sandbox snapshot. -/
def sampleEndpointNoInfo : Endpoint :=
  { name := "ep2", id := "eid2", networkName := "net1", sandboxInfo := none }

/-- A fresh controller over the succeeding driver. -/
def sampleCtrlNew : Controller := New [("bridge", okDriver)]

/-- The network `NewNetwork` builds for the witness run. -/
def sampleBuiltNet : Network :=
  { name := "net1", networkType := "", id := "aa", driver := okDriver,
    endpoints := [] }

/-- The controller state after the witness `NewNetwork` run. -/
def sampleCtrlBuilt : Controller :=
  { networks := [("aa", sampleBuiltNet)], drivers := [("bridge", okDriver)] }

/-- Two concrete `NewNetwork` requests. -/
def sampleReqs : List NewNetReq :=
  [ { networkType := "bridge", name := "net1", options := "", freshId := "a" },
    { networkType := "bridge", name := "net2", options := "", freshId := "b" } ]

/-- Two concrete `CreateEndpoint` requests. -/
def sampleEpReqs : List CreateEpReq :=
  [ { name := "ep1", sboxKey := "/ns/1", options := "", freshId := "e1" },
    { name := "ep2", sboxKey := "/ns/2", options := "", freshId := "e2" } ]

theorem lookupT_insertT_self {α : Type} (k : String) (v : α)
    (l : List (String × α)) : lookupT k (insertT k v l) = some v := by
  simp [insertT, lookupT]

theorem lookupT_eraseT_self {α : Type} (k : String) (l : List (String × α)) :
    lookupT k (eraseT k l) = none := by
  induction l with
  | nil => rfl
  | cons kv rest ih =>
    obtain ⟨k', v⟩ := kv
    by_cases h : k' = k
    · simpa [eraseT, h] using ih
    · simpa [eraseT, lookupT, h] using ih

theorem lookupT_eraseT_ne {α : Type} (k q : String) (l : List (String × α))
    (h : q ≠ k) : lookupT q (eraseT k l) = lookupT q l := by
  induction l with
  | nil => rfl
  | cons kv rest ih =>
    obtain ⟨k', v⟩ := kv
    by_cases hk : k' = k
    · subst hk
      simp [eraseT, lookupT, Ne.symm h, ih]
    · by_cases hq : k' = q <;> simp [eraseT, lookupT, hk, hq, h, ih]

theorem eraseT_sublist {α : Type} (k : String) (l : List (String × α)) :
    List.Sublist (eraseT k l) l := by
  induction l with
  | nil => simp [eraseT]
  | cons kv rest ih =>
    obtain ⟨k', v⟩ := kv
    by_cases h : k' = k
    · simpa [eraseT, h] using List.Sublist.cons (k', v) ih
    · simpa [eraseT, h] using List.Sublist.cons₂ (k', v) ih

theorem eraseT_of_not_mem {α : Type} (k : String) (l : List (String × α))
    (h : k ∉ l.map Prod.fst) : eraseT k l = l := by
  induction l with
  | nil => rfl
  | cons kv rest ih =>
    obtain ⟨k', v⟩ := kv
    simp only [List.map_cons, List.mem_cons, not_or] at h
    have hk : k' ≠ k := fun hh => h.1 hh.symm
    simp [eraseT, hk, ih h.2]

theorem not_mem_keys_eraseT {α : Type} (k : String) (l : List (String × α)) :
    k ∉ (eraseT k l).map Prod.fst := by
  induction l with
  | nil => simp [eraseT]
  | cons kv rest ih =>
    obtain ⟨k', v⟩ := kv
    by_cases h : k' = k
    · simpa [eraseT, h] using ih
    · have he : eraseT k ((k', v) :: rest) = (k', v) :: eraseT k rest := by
        simp [eraseT, h]
      rw [he, List.map_cons]
      intro hmem
      rcases List.mem_cons.mp hmem with h1 | h2
      · exact h h1.symm
      · exact ih h2

theorem nameTaken_eq_false {l : List (UUID × Network)} {name : String}
    (h : nameTaken name l = false) : ∀ kv ∈ l, kv.2.name ≠ name := by
  induction l with
  | nil => simp
  | cons kv rest ih =>
    obtain ⟨k, n⟩ := kv
    by_cases hn : n.name = name
    · simp [nameTaken, hn] at h
    · intro kv' hmem
      rcases List.mem_cons.mp hmem with rfl | hmem'
      · exact hn
      · exact ih (by simpa [nameTaken, hn] using h) kv' hmem'

theorem walkList_eq_false {α : Type} (w : α → Bool) (l : List α)
    (h : ∀ x ∈ l, w x = false) : walkList w l = false := by
  induction l with
  | nil => rfl
  | cons x rest ih =>
    simp [walkList, h x (List.mem_cons_self x rest),
      ih (fun y hy => h y (List.mem_cons_of_mem x hy))]

theorem walkVisited_eq_of_false {α : Type} (w : α → Bool) (l : List α)
    (h : ∀ x ∈ l, w x = false) : walkVisited w l = l := by
  induction l with
  | nil => rfl
  | cons x rest ih =>
    simp [walkVisited, h x (List.mem_cons_self x rest),
      ih (fun y hy => h y (List.mem_cons_of_mem x hy))]

theorem walkList_hit {α : Type} (w : α → Bool) (l1 : List α) (x : α)
    (l2 : List α) (h1 : ∀ y ∈ l1, w y = false) (hx : w x = true) :
    walkList w (l1 ++ x :: l2) = true := by
  induction l1 with
  | nil => simp [walkList, hx]
  | cons y rest ih =>
    simp [walkList, h1 y (List.mem_cons_self y rest),
      ih (fun z hz => h1 z (List.mem_cons_of_mem y hz))]

theorem walkVisited_hit {α : Type} (w : α → Bool) (l1 : List α) (x : α)
    (l2 : List α) (h1 : ∀ y ∈ l1, w y = false) (hx : w x = true) :
    walkVisited w (l1 ++ x :: l2) = l1 ++ [x] := by
  induction l1 with
  | nil => simp [walkVisited, hx]
  | cons y rest ih =>
    simp [walkVisited, h1 y (List.mem_cons_self y rest),
      ih (fun z hz => h1 z (List.mem_cons_of_mem y hz))]

/-- C1: for every network registered in the controller, if the driver's
DeleteNetwork call made by Network.Delete fails, then Network.Delete returns
that error and the network is re-inserted into the controller's registry, so
a subsequent NetworkByID with the original id returns the same network. -/
theorem c1_delete_rollback (c : Controller) (n m : Network) (e : String)
    (hreg : lookupT n.id c.networks = some m)
    (hempty : n.endpoints = [])
    (hfail : n.driver.deleteNetwork n.id = some e) :
    (Network.Delete n c).1 = some (Err.driverError e) ∧
    Controller.NetworkByID (Network.Delete n c).2 n.id = some n := by
  unfold Network.Delete
  rw [hreg]
  simp [hempty, hfail, Controller.NetworkByID, insertT, lookupT]

/-- Witness for C1 at a concrete registered network whose driver fails. -/
theorem c1_delete_rollback_witness :
    (Network.Delete sampleNetFail sampleCtrlFail).1
        = some (Err.driverError "boom") ∧
    Controller.NetworkByID (Network.Delete sampleNetFail sampleCtrlFail).2
        sampleNetFail.id = some sampleNetFail :=
  c1_delete_rollback sampleCtrlFail sampleNetFail sampleNetFail "boom"
    rfl rfl rfl

/-- C3: if the driver's CreateNetwork call fails, NewNetwork returns that
error and the controller's registry is exactly as it was before the call. -/
theorem c3_newnetwork_driver_failure (c : Controller) (t name : String)
    (o : Options) (fid : UUID) (d : Driver) (e : String)
    (hd : lookupT t c.drivers = some d)
    (hn : nameTaken name c.networks = false)
    (hf : d.createNetwork fid o = some e) :
    c.NewNetwork t name o fid = (Except.error (Err.driverError e), c) := by
  unfold Controller.NewNetwork
  rw [hd]
  simp [hn, hf]

/-- Witness for C3 at a concrete controller whose driver fails to create. -/
theorem c3_newnetwork_driver_failure_witness :
    Controller.NewNetwork sampleCtrlFail "bridge" "net2" "" "nid2"
      = (Except.error (Err.driverError "boom"), sampleCtrlFail) :=
  c3_newnetwork_driver_failure sampleCtrlFail "bridge" "net2" "" "nid2"
    failDriver "boom" rfl rfl rfl

/-- C10: a NewNetwork call whose network type has no registered driver
returns ErrInvalidNetworkDriver (driver resolution precedes the name scan)
and leaves the registry unchanged. -/
theorem c10_invalid_driver (c : Controller) (t name : String) (o : Options)
    (fid : UUID) (hd : lookupT t c.drivers = none) :
    c.NewNetwork t name o fid
      = (Except.error Err.errInvalidNetworkDriver, c) := by
  unfold Controller.NewNetwork
  rw [hd]

/-- Witness for C10: the requested name is already used by a registered
network, yet the missing driver is reported first and nothing changes. -/
theorem c10_invalid_driver_witness :
    Controller.NewNetwork sampleCtrlNoDrivers "overlay" "net1" "" "nid9"
      = (Except.error Err.errInvalidNetworkDriver, sampleCtrlNoDrivers) :=
  c10_invalid_driver sampleCtrlNoDrivers "overlay" "net1" "" "nid9" rfl

/-- C5: Endpoint.Delete fails with UnknownEndpointError when the endpoint's
id is absent from its network's table; when present, on driver success the
endpoint is removed from the table, and on driver failure it is re-inserted
(the table maps its id to it again, other keys untouched) and the error is
returned. -/
theorem c5_endpoint_delete (n : Network) (ep : Endpoint) :
    (lookupT ep.id n.endpoints = none →
      Endpoint.Delete ep n
        = (some (Err.unknownEndpointError ep.name ep.id), n)) ∧
    (∀ e0, lookupT ep.id n.endpoints = some e0 →
      (n.driver.deleteEndpoint n.id ep.id = none →
        Endpoint.Delete ep n
          = (none, { n with endpoints := eraseT ep.id n.endpoints })) ∧
      (∀ e, n.driver.deleteEndpoint n.id ep.id = some e →
        (Endpoint.Delete ep n).1 = some (Err.driverError e) ∧
        lookupT ep.id (Endpoint.Delete ep n).2.endpoints = some ep ∧
        ∀ k, k ≠ ep.id →
          lookupT k (Endpoint.Delete ep n).2.endpoints
            = lookupT k n.endpoints)) := by
  constructor
  · intro h
    simp [Endpoint.Delete, h]
  · intro e0 h
    constructor
    · intro hok
      simp [Endpoint.Delete, h, hok]
    · intro e he
      have hD : Endpoint.Delete ep n
          = (some (Err.driverError e),
             { n with endpoints :=
                insertT ep.id ep (eraseT ep.id n.endpoints) }) := by
        simp [Endpoint.Delete, h, he, insertT]
      rw [hD]
      refine ⟨rfl, ?_, ?_⟩
      · simp [insertT, lookupT]
      · intro k hk
        simp only [insertT, lookupT, if_neg (Ne.symm hk)]
        rw [lookupT_eraseT_ne ep.id k _ hk, lookupT_eraseT_ne ep.id k _ hk]

/-- Witness for C5: the absent, success and driver-failure cases at concrete
endpoints and networks. -/
theorem c5_endpoint_delete_witness :
    Endpoint.Delete sampleEndpointNoInfo sampleNetEp
      = (some (Err.unknownEndpointError "ep2" "eid2"), sampleNetEp) ∧
    Endpoint.Delete sampleEndpoint sampleNetEp
      = (none, { sampleNetEp with
                  endpoints := eraseT "eid1" sampleNetEp.endpoints }) ∧
    (Endpoint.Delete sampleEndpoint sampleNetEpFail).1
      = some (Err.driverError "boom") ∧
    lookupT "eid1" (Endpoint.Delete sampleEndpoint sampleNetEpFail).2.endpoints
      = some sampleEndpoint := by
  refine ⟨(c5_endpoint_delete sampleNetEp sampleEndpointNoInfo).1 rfl,
    ((c5_endpoint_delete sampleNetEp sampleEndpoint).2 sampleEndpoint rfl).1 rfl,
    ?_, ?_⟩
  · exact (((c5_endpoint_delete sampleNetEpFail sampleEndpoint).2
      sampleEndpoint rfl).2 "boom" rfl).1
  · exact (((c5_endpoint_delete sampleNetEpFail sampleEndpoint).2
      sampleEndpoint rfl).2 "boom" rfl).2.1

/-- C8: SandboxInfo returns none when no snapshot is stored, and otherwise a
deep copy of the stored snapshot; the copy is value-equal to the stored
snapshot but rebuilt rather than handed out. -/
theorem c8_sandboxinfo (ep : Endpoint) :
    (ep.sandboxInfo = none → ep.SandboxInfo = none) ∧
    (∀ i, ep.sandboxInfo = some i →
      ep.SandboxInfo = some (Info.GetCopy i) ∧ Info.GetCopy i = i) := by
  constructor
  · intro h
    simp [Endpoint.SandboxInfo, h]
  · intro i h
    refine ⟨by simp [Endpoint.SandboxInfo, h], ?_⟩
    cases i
    rfl

/-- Witness for C8 at a concrete endpoint with and without a snapshot. -/
theorem c8_sandboxinfo_witness :
    Endpoint.SandboxInfo sampleEndpointNoInfo = none ∧
    Endpoint.SandboxInfo sampleEndpoint = some (Info.GetCopy sampleInfo) ∧
    Info.GetCopy sampleInfo = sampleInfo := by
  refine ⟨(c8_sandboxinfo sampleEndpointNoInfo).1 rfl, ?_, ?_⟩
  · exact ((c8_sandboxinfo sampleEndpoint).2 sampleInfo rfl).1
  · exact ((c8_sandboxinfo sampleEndpoint).2 sampleInfo rfl).2

/-- C9: when Network.Delete reports UnknownNetworkError or
ActiveEndpointsError, the result is the same for every possible driver
DeleteNetwork behaviour (the driver is never invoked) and the controller's
table is returned exactly as it was; the network value itself, including its
endpoint table, is never modified by Delete. -/
theorem c9_delete_error_paths (c : Controller) (n : Network) :
    (lookupT n.id c.networks = none →
      ∀ f, Network.Delete (n.withDeleteNetwork f) c
        = (some (Err.unknownNetworkError n.name n.id), c)) ∧
    (∀ m, lookupT n.id c.networks = some m → n.endpoints ≠ [] →
      ∀ f, Network.Delete (n.withDeleteNetwork f) c
        = (some (Err.activeEndpointsError n.name n.id), c)) := by
  constructor
  · intro h f
    simp [Network.Delete, Network.withDeleteNetwork, h]
  · intro m h hne f
    have hlen : n.endpoints.length ≠ 0 := by
      simpa [List.length_eq_zero] using hne
    simp [Network.Delete, Network.withDeleteNetwork, h, hlen]

/-- Witness for C9: both error paths at concrete networks, under a driver
behaviour that would fail if it were consulted. -/
theorem c9_delete_error_paths_witness :
    Network.Delete (Network.withDeleteNetwork ghostNet (fun _ => some "x"))
        sampleCtrlEp
      = (some (Err.unknownNetworkError "net1" "ghost"), sampleCtrlEp) ∧
    Network.Delete (Network.withDeleteNetwork sampleNetEp (fun _ => some "x"))
        sampleCtrlEp
      = (some (Err.activeEndpointsError "net1" "nid1"), sampleCtrlEp) := by
  refine ⟨(c9_delete_error_paths sampleCtrlEp ghostNet).1 rfl (fun _ => some "x"),
    (c9_delete_error_paths sampleCtrlEp sampleNetEp).2 sampleNetEp rfl
      (by decide) (fun _ => some "x")⟩

/-- Helper: a Network.Delete call that returns no error leaves the network's
id unbound in the resulting controller table. -/
theorem delete_success_lookup_none (n : Network) (c1 c2 : Controller)
    (hdel : Network.Delete n c1 = (none, c2)) :
    lookupT n.id c2.networks = none := by
  unfold Network.Delete at hdel
  cases hl : lookupT n.id c1.networks with
  | none =>
    rw [hl] at hdel
    simp at hdel
  | some m =>
    rw [hl] at hdel
    by_cases hlen : n.endpoints.length ≠ 0
    · simp [hlen] at hdel
    · simp only [hlen, if_false, ite_false] at hdel
      cases hdn : n.driver.deleteNetwork n.id with
      | some e =>
        rw [hdn] at hdel
        simp at hdel
      | none =>
        rw [hdn] at hdel
        rw [Prod.ext_iff] at hdel
        obtain ⟨-, hc2⟩ := hdel
        subst hc2
        simp [lookupT_eraseT_self]

/-- C6: a successful NewNetwork followed by NetworkByID with the returned id
yields the same network; after a successful Delete of that network,
NetworkByID with the same id yields none. -/
theorem c6_lifecycle_roundtrip (c : Controller) (t name : String) (o : Options)
    (fid : UUID) (nw : Network) (c1 : Controller)
    (h : c.NewNetwork t name o fid = (Except.ok nw, c1)) :
    Controller.NetworkByID c1 (Network.ID nw) = some nw ∧
    ∀ c2, Network.Delete nw c1 = (none, c2) →
      Controller.NetworkByID c2 (Network.ID nw) = none := by
  constructor
  · cases hd : lookupT t c.drivers with
    | none =>
      rw [Controller.NewNetwork, hd] at h
      simp at h
    | some d =>
      cases hn : nameTaken name c.networks with
      | true =>
        rw [Controller.NewNetwork, hd] at h
        simp [hn] at h
      | false =>
        cases hc : d.createNetwork fid o with
        | some e =>
          rw [Controller.NewNetwork, hd] at h
          simp [hn, hc] at h
        | none =>
          rw [Controller.NewNetwork, hd] at h
          simp only [hn, Bool.false_eq_true, if_false, ite_false, hc] at h
          rw [Prod.ext_iff] at h
          obtain ⟨h1, h2⟩ := h
          simp only [Except.ok.injEq] at h1
          subst h1
          subst h2
          simp [Controller.NetworkByID, Network.ID, lookupT_insertT_self]
  · intro c2 hdel
    have hnone := delete_success_lookup_none nw c1 c2 hdel
    simpa [Controller.NetworkByID, Network.ID] using hnone

/-- Witness for C6 at a concrete fresh controller and succeeding driver. -/
theorem c6_lifecycle_roundtrip_witness :
    Controller.NetworkByID sampleCtrlBuilt (Network.ID sampleBuiltNet)
      = some sampleBuiltNet ∧
    Controller.NetworkByID (Network.Delete sampleBuiltNet sampleCtrlBuilt).2
      (Network.ID sampleBuiltNet) = none := by
  have h := c6_lifecycle_roundtrip sampleCtrlNew "bridge" "net1" "" "aa"
    sampleBuiltNet sampleCtrlBuilt rfl
  exact ⟨h.1, h.2 (Network.Delete sampleBuiltNet sampleCtrlBuilt).2 rfl⟩

/-- Helper: deleting, in snapshot order, every endpoint of a table with
unique, consistent keys empties the table when the driver succeeds. -/
theorem foldl_delete_endpoints (l : List (UUID × Endpoint)) :
    ∀ m : Network, m.endpoints = l →
      (l.map Prod.fst).Nodup →
      (∀ kv ∈ l, kv.2.id = kv.1) →
      (∀ eid, m.driver.deleteEndpoint m.id eid = none) →
      List.foldl (fun acc ep => (Endpoint.Delete ep acc).2) m (l.map Prod.snd)
        = { m with endpoints := [] } := by
  induction l with
  | nil =>
    intro m hm _ _ _
    simp only [List.map_nil, List.foldl_nil]
    cases m with
    | mk nm ty i d eps =>
      have he : eps = [] := hm
      subst he
      rfl
  | cons kv rest ih =>
    obtain ⟨k, ep⟩ := kv
    intro m hm hnd hcons hdrv
    have hid : ep.id = k := hcons (k, ep) (List.mem_cons_self _ _)
    have hnd' : (rest.map Prod.fst).Nodup ∧ k ∉ rest.map Prod.fst := by
      simp only [List.map_cons, List.nodup_cons] at hnd
      exact ⟨hnd.2, hnd.1⟩
    have hstep : (Endpoint.Delete ep m).2 = { m with endpoints := rest } := by
      simp [Endpoint.Delete, hm, hid, lookupT, hdrv, eraseT,
        eraseT_of_not_mem k rest hnd'.2]
    simp only [List.map_cons, List.foldl_cons]
    rw [hstep]
    exact ih { m with endpoints := rest } rfl hnd'.1
      (fun kv hkv => hcons kv (List.mem_cons_of_mem _ hkv)) hdrv

/-- C2: a network with a non-empty endpoint table always rejects Delete with
ActiveEndpointsError; after deleting every one of its endpoints, Delete on
the same network succeeds provided the driver's DeleteNetwork succeeds. -/
theorem c2_guarded_deletion (c : Controller) (n m : Network)
    (hreg : lookupT n.id c.networks = some m) :
    (n.endpoints ≠ [] →
      Network.Delete n c
        = (some (Err.activeEndpointsError n.name n.id), c)) ∧
    ((n.endpoints.map Prod.fst).Nodup →
      (∀ kv ∈ n.endpoints, kv.2.id = kv.1) →
      (∀ eid, n.driver.deleteEndpoint n.id eid = none) →
      n.driver.deleteNetwork n.id = none →
      (Network.Delete (deleteAllEndpoints n) c).1 = none) := by
  constructor
  · intro hne
    have hlen : n.endpoints.length ≠ 0 := by
      simpa [List.length_eq_zero] using hne
    simp [Network.Delete, hreg, hlen]
  · intro hnd hcons hdrvE hdrvN
    have hall : deleteAllEndpoints n = { n with endpoints := [] } :=
      foldl_delete_endpoints n.endpoints n rfl hnd hcons hdrvE
    rw [deleteAllEndpoints] at hall
    unfold deleteAllEndpoints
    rw [Network.Endpoints] at hall ⊢
    rw [hall]
    simp [Network.Delete, hreg, hdrvN]

/-- Witness for C2 at a concrete one-endpoint network over a succeeding
driver. -/
theorem c2_guarded_deletion_witness :
    Network.Delete sampleNetEp sampleCtrlEp
      = (some (Err.activeEndpointsError "net1" "nid1"), sampleCtrlEp) ∧
    (Network.Delete (deleteAllEndpoints sampleNetEp) sampleCtrlEp).1
      = none := by
  have h := c2_guarded_deletion sampleCtrlEp sampleNetEp sampleNetEp rfl
  exact ⟨h.1 (by decide), h.2 (by decide) (by decide) (fun _ => rfl) rfl⟩

/-- Helper: one NewNetwork call preserves pairwise-distinct network names. -/
theorem newNetwork_names_nodup (c : Controller) (t name : String)
    (o : Options) (fid : UUID)
    (h : (c.networks.map (fun kv => kv.2.name)).Nodup) :
    (((c.NewNetwork t name o fid).2).networks.map
      (fun kv => kv.2.name)).Nodup := by
  cases hd : lookupT t c.drivers with
  | none => simpa [Controller.NewNetwork, hd] using h
  | some d =>
    cases hn : nameTaken name c.networks with
    | true => simpa [Controller.NewNetwork, hd, hn] using h
    | false =>
      cases hc : d.createNetwork fid o with
      | some e => simpa [Controller.NewNetwork, hd, hn, hc] using h
      | none =>
        have hnotmem : name ∉ (eraseT fid c.networks).map
            (fun kv => kv.2.name) := by
          intro hmem
          rcases List.mem_map.mp hmem with ⟨kv, hkv, hname⟩
          exact nameTaken_eq_false hn kv
            ((eraseT_sublist fid c.networks).subset hkv) hname
        have hsub := (eraseT_sublist fid c.networks).map
          (fun kv : UUID × Network => kv.2.name)
        simp only [Controller.NewNetwork, hd, hn, Bool.false_eq_true, if_false,
          ite_false, hc, insertT, List.map_cons]
        exact List.nodup_cons.mpr ⟨hnotmem, h.sublist hsub⟩

/-- Helper: any sequence of NewNetwork calls preserves distinct names. -/
theorem runNewNetworks_names_nodup (reqs : List NewNetReq) :
    ∀ c : Controller, (c.networks.map (fun kv => kv.2.name)).Nodup →
      ((runNewNetworks c reqs).networks.map (fun kv => kv.2.name)).Nodup := by
  induction reqs with
  | nil =>
    intro c h
    simpa [runNewNetworks] using h
  | cons r rest ih =>
    intro c h
    simp only [runNewNetworks]
    exact ih _ (newNetwork_names_nodup c r.networkType r.name r.options
      r.freshId h)

/-- Helper: one CreateEndpoint call preserves unique keys and key-consistent
stored ids in the endpoint table. -/
theorem createEndpoint_table_inv (n : Network) (name sboxKey : String)
    (o : Options) (fid : UUID)
    (hnd : (n.endpoints.map Prod.fst).Nodup)
    (hcons : ∀ kv ∈ n.endpoints, kv.2.id = kv.1) :
    (((n.CreateEndpoint name sboxKey o fid).2).endpoints.map Prod.fst).Nodup ∧
    ∀ kv ∈ ((n.CreateEndpoint name sboxKey o fid).2).endpoints,
      kv.2.id = kv.1 := by
  cases hc : n.driver.createEndpoint n.id fid sboxKey o with
  | error e =>
    simp only [Network.CreateEndpoint, hc]
    exact ⟨hnd, hcons⟩
  | ok sinfo =>
    simp only [Network.CreateEndpoint, hc, insertT]
    constructor
    · simp only [List.map_cons]
      exact List.nodup_cons.mpr ⟨not_mem_keys_eraseT fid n.endpoints,
        hnd.sublist ((eraseT_sublist fid n.endpoints).map Prod.fst)⟩
    · intro kv hkv
      rcases List.mem_cons.mp hkv with rfl | h2
      · rfl
      · exact hcons kv ((eraseT_sublist fid n.endpoints).subset h2)

/-- Helper: any sequence of CreateEndpoint calls preserves the endpoint-table
invariant. -/
theorem runCreateEndpoints_inv (eps : List CreateEpReq) :
    ∀ n : Network, (n.endpoints.map Prod.fst).Nodup →
      (∀ kv ∈ n.endpoints, kv.2.id = kv.1) →
      ((runCreateEndpoints n eps).endpoints.map Prod.fst).Nodup ∧
      ∀ kv ∈ (runCreateEndpoints n eps).endpoints, kv.2.id = kv.1 := by
  induction eps with
  | nil =>
    intro n h1 h2
    exact ⟨h1, h2⟩
  | cons r rest ih =>
    intro n h1 h2
    simp only [runCreateEndpoints]
    obtain ⟨h1', h2'⟩ := createEndpoint_table_inv n r.name r.sboxKey r.options
      r.freshId h1 h2
    exact ih _ h1' h2'

/-- C4: after any sequence of sequential NewNetwork calls from a fresh
controller, no two registered networks share a name; and after any sequence
of CreateEndpoint calls on one network whose table satisfies the map
invariant, no two endpoints in the table share an identifier. -/
theorem c4_uniqueness (ds : List (String × Driver)) (reqs : List NewNetReq) :
    ((runNewNetworks (New ds) reqs).networks.map
      (fun kv => kv.2.name)).Nodup ∧
    ∀ (n : Network) (eps : List CreateEpReq),
      (n.endpoints.map Prod.fst).Nodup →
      (∀ kv ∈ n.endpoints, kv.2.id = kv.1) →
      ((runCreateEndpoints n eps).Endpoints.map (fun ep => ep.id)).Nodup := by
  constructor
  · exact runNewNetworks_names_nodup reqs (New ds) (by simp [New])
  · intro n eps h1 h2
    obtain ⟨h1', h2'⟩ := runCreateEndpoints_inv eps n h1 h2
    have hmap : (runCreateEndpoints n eps).Endpoints.map (fun ep => ep.id)
        = (runCreateEndpoints n eps).endpoints.map Prod.fst := by
      unfold Network.Endpoints
      rw [List.map_map]
      exact List.map_congr_left (fun kv hkv => h2' kv hkv)
    rw [hmap]
    exact h1'

/-- Witness for C4 at two concrete NewNetwork requests and two concrete
CreateEndpoint requests on a fresh network. -/
theorem c4_uniqueness_witness :
    ((runNewNetworks (New [("bridge", okDriver)]) sampleReqs).networks.map
      (fun kv => kv.2.name)).Nodup ∧
    ((runCreateEndpoints sampleNet sampleEpReqs).Endpoints.map
      (fun ep => ep.id)).Nodup := by
  have h := c4_uniqueness [("bridge", okDriver)] sampleReqs
  exact ⟨h.1, h.2 sampleNet sampleEpReqs (by decide) (by decide)⟩

/-- C7 counterexample: WalkEndpoints has no return value.  At a network whose
table holds one endpoint, the run with an always-true walker (which the claim
says returns true) and the run with a never-true walker (which the claim says
returns false) produce the very same result. -/
theorem c7_walkendpoints_counterexample :
    Network.WalkEndpoints sampleNetEp (fun _ => true)
      = Network.WalkEndpoints sampleNetEp (fun _ => false) := rfl

/-- C7 (amended): WalkNetworks invokes the walker exactly on the prefix of
the snapshot up to and including the first hit and returns true; with no hit
it invokes the walker on the whole snapshot and returns false.  WalkEndpoints
follows the same loop over the endpoint snapshot but returns nothing either
way. -/
theorem c7_walk_short_circuit (c : Controller) (n : Network)
    (wn : Network → Bool) (we : Endpoint → Bool) :
    ((∀ x ∈ c.Networks, wn x = false) →
      c.WalkNetworks wn = false ∧
      walkVisited wn c.Networks = c.Networks) ∧
    (∀ l1 x l2, c.Networks = l1 ++ x :: l2 → (∀ y ∈ l1, wn y = false) →
      wn x = true →
      c.WalkNetworks wn = true ∧
      walkVisited wn c.Networks = l1 ++ [x]) ∧
    ((∀ x ∈ n.Endpoints, we x = false) →
      n.WalkEndpoints we = () ∧
      walkVisited we n.Endpoints = n.Endpoints) ∧
    (∀ l1 x l2, n.Endpoints = l1 ++ x :: l2 → (∀ y ∈ l1, we y = false) →
      we x = true →
      n.WalkEndpoints we = () ∧
      walkVisited we n.Endpoints = l1 ++ [x]) := by
  refine ⟨fun h => ⟨walkList_eq_false wn c.Networks h,
      walkVisited_eq_of_false wn c.Networks h⟩,
    fun l1 x l2 hs h1 hx => ⟨?_, ?_⟩,
    fun h => ⟨rfl, walkVisited_eq_of_false we n.Endpoints h⟩,
    fun l1 x l2 hs h1 hx => ⟨rfl, ?_⟩⟩
  · unfold Controller.WalkNetworks
    rw [hs]
    exact walkList_hit wn l1 x l2 h1 hx
  · rw [hs]
    exact walkVisited_hit wn l1 x l2 h1 hx
  · rw [hs]
    exact walkVisited_hit we l1 x l2 h1 hx

/-- Witness for C7: a never-true walk over a one-network controller covers
the whole snapshot and returns false; an always-true walk over a one-endpoint
network visits only the first element. -/
theorem c7_walk_short_circuit_witness :
    (Controller.WalkNetworks sampleCtrlEp (fun _ => false) = false ∧
      walkVisited (fun _ => false) (Controller.Networks sampleCtrlEp)
        = Controller.Networks sampleCtrlEp) ∧
    (Network.WalkEndpoints sampleNetEp (fun _ => true) = () ∧
      walkVisited (fun _ => true) (Network.Endpoints sampleNetEp)
        = [] ++ [sampleEndpoint]) := by
  have h := c7_walk_short_circuit sampleCtrlEp sampleNetEp
    (fun _ => false) (fun _ => true)
  exact ⟨h.1 (fun x _ => rfl),
    h.2.2.2 [] sampleEndpoint [] rfl (fun y hy => nomatch hy) rfl⟩
